import Mathlib

/-!
A verification model of the pi-ano rhythm engine.

Shallow embedding, in Lean 4, of the rhythm-game logic of the `pi-ano`
repository:

* `src/logic/modes/rhythm_chart.py` — the `ChartNote` data type;
* `src/logic/modes/rhythm_mode.py` — chart compression, hit/miss judging,
  the WAIT_COUNTDOWN / PLAY / DONE phase machine;
* `src/logic/modes/rhythm_audio.py` — the background `AudioScheduler`;
* `src/logic/high_scores.py` — the persistent `HighScoreStore`;
* `src/logic/input_manager.py` — the post-game presentation timeline and
  the Pico-message handler;
* `src/code.py` — the remote (Pico) display state machine: command
  dispatch, marquee/score lock windows, the bounded pending FIFO, and the
  acknowledgement lines it prints.

Times are modelled as exact rationals (the Python code uses float seconds
from `time.monotonic`).  Python object aliasing (`self.active_note` is a
reference into `self.chart_notes`) is modelled by storing the index of the
active note.  I/O (LED rendering, serial writes, thread start/join, sound
engine calls) is modelled as emitted effect values where a claim observes
it, and dropped where no claim does.
-/

namespace PiAno

/-! ## Basic data model -/

/-- Phase of `RhythmMode` (`rhythm_mode.py` line 137: the strings
"WAIT_COUNTDOWN" / "PLAY" / "DONE"). -/
inductive Phase
  | wait_countdown
  | play
  | done
deriving DecidableEq, Repr

/-- One compressed melody note, from `rhythm_chart.py` (`ChartNote`).
`key` is the lane (`KeyId` 0..4); `hit`/`judged`/`score` are the runtime
judgment fields. -/
structure ChartNote where
  time : ℚ
  midi_note : ℤ
  key : ℕ
  velocity : ℚ
  hit : Bool := false
  judged : Bool := false
  score : ℕ := 0
deriving DecidableEq, Repr

/-- Source `PERFECT_WINDOW_SEC = 0.08` (`rhythm_mode.py` line 64). -/
def PERFECT_WINDOW_SEC : ℚ := 8/100

/-- Source `GOOD_WINDOW_SEC = 0.16` (`rhythm_mode.py` line 65). -/
def GOOD_WINDOW_SEC : ℚ := 16/100

/-- Source `MISS_LATE_SEC = 0.25` (`rhythm_mode.py` line 66). -/
def MISS_LATE_SEC : ℚ := 1/4

/-- Source `FALL_DURATION_SEC = 1.0` (`rhythm_mode.py` line 70). -/
def FALL_DURATION_SEC : ℚ := 1

/-- Source `FEEDBACK_DURATION_SEC = 0.25` (`rhythm_mode.py` line 73). -/
def FEEDBACK_DURATION_SEC : ℚ := 1/4

/-- Source `FEEDBACK_COLOR_PERFECT` (`rhythm_mode.py` line 59). -/
def FEEDBACK_COLOR_PERFECT : ℕ × ℕ × ℕ := (120, 220, 120)

/-- Source `FEEDBACK_COLOR_GOOD` (`rhythm_mode.py` line 60). -/
def FEEDBACK_COLOR_GOOD : ℕ × ℕ × ℕ := (255, 180, 60)

/-- Source `FEEDBACK_COLOR_MISS` (`rhythm_mode.py` line 61). -/
def FEEDBACK_COLOR_MISS : ℕ × ℕ × ℕ := (255, 40, 40)

/-! ## ChartBuilder: melody compression
(`RhythmMode._build_chart_from_midi`, `rhythm_mode.py` lines 422-443) -/

/-- Source `cluster_eps = 0.08` (80 ms), `rhythm_mode.py` line 430. -/
def cluster_eps : ℚ := 8/100

/-- Python's `max(cluster, key=lambda n: n.midi_note)`: scan left to right,
replace the running best only on a strictly greater key, so the *first*
maximal element is returned.  The cluster is passed as head plus tail, as
it is always non-empty in the source. -/
def pyMaxPitch (h : ChartNote) (t : List ChartNote) : ChartNote :=
  t.foldl (fun b n => if n.midi_note > b.midi_note then n else b) h

/-- Source `cluster[-1]` for the non-empty cluster `h :: t`. -/
def lastNote (h : ChartNote) (t : List ChartNote) : ChartNote :=
  t.getLastD h

/-- The compression loop of `_build_chart_from_midi` (lines 429-441):
`cluster` is the non-empty current group (`clHead :: clRest`, in order),
`rest` the unscanned remainder of the sorted raw notes.  A note within
`cluster_eps` of the 'cluster' last element joins the group; otherwise the
group is flushed as its highest-pitch note and a new group starts. -/
def compressAux (clHead : ChartNote) (clRest : List ChartNote) :
    List ChartNote → List ChartNote
  | [] => [pyMaxPitch clHead clRest]
  | note :: rest =>
    if |note.time - (lastNote clHead clRest).time| ≤ cluster_eps then
      compressAux clHead (clRest ++ [note]) rest
    else
      pyMaxPitch clHead clRest :: compressAux note [] rest

/-- Source `_build_chart_from_midi`'s compression of the time-sorted `raw_notes`
into the main melody (`melody` in the source). -/
def compress (raw : List ChartNote) : List ChartNote :=
  match raw with
  | [] => []
  | h :: t => compressAux h [] t

/-- Source `RhythmMode._midi_note_to_key` (lines 451-457): lane =
`(midi_note - 60) % 5`, clamped to 0..4.  `Int.emod` agrees with Python's
`%` on a positive modulus. -/
def midi_note_to_key (midi_note : ℤ) : ℤ :=
  max 0 (min 4 ((midi_note - 60) % 5))

/-! ## AudioScheduler
(`rhythm_audio.py`, class `AudioScheduler`) -/

/-- The mutable fields of `AudioScheduler`: `start_time`, `idx`, and the
`_stop_flag` event. -/
structure SchedState where
  start_time : Option ℚ := none
  idx : ℕ := 0
  stopFlag : Bool := false
deriving DecidableEq, Repr

/-- One observable step of the scheduler thread: either one iteration of
`AudioScheduler.run`'s loops sampling the clock at `now` (lines 75-102),
or an external `stop()` call (line 63-69) setting the stop flag. -/
inductive SchedIn
  | tick (now : ℚ)
  | stop
deriving DecidableEq, Repr

/-- One step of the scheduler.  On a `tick`: if the stop flag is set or
`start_time` is unset or all notes are spent, the loop does nothing; if
the next note is not yet due (`wait > 0`) it sleeps; otherwise it plays
`notes[idx]` (emitted as `(idx, note)`) and increments `idx`. -/
def schedStepIn (notes : List ChartNote) (s : SchedState) (i : SchedIn) :
    SchedState × Option (ℕ × ChartNote) :=
  match i with
  | SchedIn.stop => ({ s with stopFlag := true }, none)
  | SchedIn.tick now =>
    if s.stopFlag then (s, none)
    else
      match s.start_time with
      | none => (s, none)
      | some t0 =>
        if h : s.idx < notes.length then
          let note := notes.get ⟨s.idx, h⟩
          if note.time - (now - t0) > 0 then (s, none)
          else ({ s with idx := s.idx + 1 }, some (s.idx, note))
        else (s, none)

/-- A whole execution of the worker over a sequence of clock samples and
stop requests, collecting every `(index, note)` playback it triggers. -/
def schedRun (notes : List ChartNote) (s : SchedState) (ins : List SchedIn) :
    SchedState × List (ℕ × ChartNote) :=
  match ins with
  | [] => (s, [])
  | i :: ins' =>
    let st := schedStepIn notes s i
    let rest := schedRun notes st.1 ins'
    (rest.1, st.2.toList ++ rest.2)

/-- The epilogue of `AudioScheduler.run` (lines 104-113): after the loop
exits, `audio.stop_all()` is called if and only if the stop flag was set
(i.e. the run was force-stopped rather than playing out naturally). -/
def runEpilogueStopsAll (s : SchedState) : Bool :=
  s.stopFlag

/-! ## RhythmMode state machine
(`rhythm_mode.py`, class `RhythmMode`) -/

/-- Source `EventType` from `src/logic/input_event.py`. -/
inductive EventType
  | note_on
  | note_off
  | mode_switch
  | next_mode
  | next_song
  | next_sf2
deriving DecidableEq, Repr

/-- An `InputEvent` (`src/logic/input_event.py`), restricted to the fields
`RhythmMode.handle_events` reads: `type` and the optional lane `key`. -/
structure InputEvent where
  type : EventType
  key : Option ℕ := none
deriving DecidableEq, Repr

/-- The mutable state of a `RhythmMode` instance (`rhythm_mode.py`
`__init__`, lines 115-162).  `active_note` holds the *index* into
`chart_notes` of the note the Python object reference points at.
`audioPresent` models `self.audio is not None`. -/
structure RhythmState where
  phase : Phase
  play_start : Option ℚ
  chart_notes : List ChartNote
  current_index : ℕ
  active_note : Option ℕ
  score : ℕ
  total_notes : ℕ
  max_score : ℕ
  feedback_until_song_time : Option ℚ
  feedback_color : Option (ℕ × ℕ × ℕ)
  render_start_index : ℕ
  audio_scheduler : Option SchedState
  audioPresent : Bool
deriving DecidableEq, Repr

/-- Observable calls into the sound engine / scheduler made by
`RhythmMode`: `AudioScheduler.stop()` and `AudioEngine.stop_all()`. -/
inductive REffect
  | schedStop
  | stopAll
deriving DecidableEq, Repr

/-- Source `RhythmMode._start_feedback` (lines 463-468). -/
def startFeedback (s : RhythmState) (song_time : ℚ) (color : ℕ × ℕ × ℕ) :
    RhythmState :=
  { s with feedback_color := some color,
           feedback_until_song_time := some (song_time + FEEDBACK_DURATION_SEC) }

/-- Source `RhythmMode._register_hit` (lines 470-501), for the note at index `i`
(the aliased `self.active_note`).  `dt = hit_time - note_time`. -/
def registerHit (s : RhythmState) (i : ℕ) (dt song_time : ℚ) : RhythmState :=
  match s.chart_notes[i]? with
  | none => s
  | some note =>
    if note.judged then s
    else
      let w : ℕ :=
        if |dt| ≤ PERFECT_WINDOW_SEC then 2
        else if |dt| ≤ GOOD_WINDOW_SEC then 1
        else 0
      let s1 := { s with
        chart_notes := s.chart_notes.set i { note with judged := true, hit := true, score := w } }
      let s2 := if w > 0 then { s1 with score := s1.score + w } else s1
      if w = 2 then startFeedback s2 song_time FEEDBACK_COLOR_PERFECT
      else if w = 1 then startFeedback s2 song_time FEEDBACK_COLOR_GOOD
      else s2

/-- Source `RhythmMode._register_miss` (lines 503-513), for the note at index
`i`.  Sets `judged` (leaving `hit` as is), zero score, red feedback. -/
def registerMiss (s : RhythmState) (i : ℕ) (song_time : ℚ) : RhythmState :=
  match s.chart_notes[i]? with
  | none => s
  | some note =>
    if note.judged then s
    else
      let s1 := { s with
        chart_notes := s.chart_notes.set i { note with judged := true, score := 0 } }
      startFeedback s1 song_time FEEDBACK_COLOR_MISS

/-- The body of the `for ev in events` loop of `RhythmMode.handle_events`
(lines 529-543): only `NOTE_ON` events with a key matching the lane of
the current active note register a hit; everything else is skipped. -/
def handleOneEvent (s : RhythmState) (song_time : ℚ) (ev : InputEvent) :
    RhythmState :=
  if ev.type ≠ EventType.note_on then s
  else
    match ev.key with
    | none => s
    | some k =>
      match s.active_note with
      | none => s
      | some i =>
        match s.chart_notes[i]? with
        | none => s
        | some note =>
          if k ≠ note.key then s
          else registerHit s i (song_time - note.time) song_time

/-- Source `RhythmMode.handle_events` (lines 519-543).  `now` is the value
`self._time_fn()` returns; `song_time = now - play_start` is computed once
before the loop. -/
def handle_events (s : RhythmState) (events : List InputEvent) (now : ℚ) :
    RhythmState :=
  if s.phase ≠ Phase.play then s
  else
    match s.play_start with
    | none => s
    | some t0 => events.foldl (fun st ev => handleOneEvent st (now - t0) ev) s

/-- Source `RhythmMode._update_active_note` (lines 610-620): when the active note
is more than `MISS_LATE_SEC` past its time, register a miss (if it is not
already judged) and clear the active slot. -/
def updateActiveNote (s : RhythmState) (song_time : ℚ) : RhythmState :=
  match s.active_note with
  | none => s
  | some i =>
    match s.chart_notes[i]? with
    | none => s
    | some note =>
      if song_time - note.time > MISS_LATE_SEC then
        let s1 := if note.judged then s else registerMiss s i song_time
        { s1 with active_note := none }
      else s

/-- The number of loop iterations of `_update_render_start_index`'s
`while` (lines 622-631) over the suffix of the chart from the current
index: consecutive notes with `time < cutoff` are skipped. -/
def countWhileOld (cutoff : ℚ) : List ChartNote → ℕ
  | [] => 0
  | n :: t => if n.time < cutoff then countWhileOld cutoff t + 1 else 0

/-- Source `RhythmMode._update_render_start_index` (lines 622-631) as the new
value of `render_start_index`: the while loop advances the index past
every leading not-yet-skipped note with `time < cutoff`. -/
def advanceRenderIndex (notes : List ChartNote) (cutoff : ℚ) (i : ℕ) : ℕ :=
  i + countWhileOld cutoff (notes.drop i)

/-- Source `appear_lead = 0.2` (local constant in `_spawn_next_note_if_needed`,
line 644). -/
def appear_lead : ℚ := 2/10

/-- Source `RhythmMode._spawn_next_note_if_needed` (lines 633-654). -/
def spawnNextNoteIfNeeded (s : RhythmState) (song_time : ℚ) : RhythmState :=
  if s.active_note.isSome then s
  else
    match s.chart_notes[s.current_index]? with
    | none => s
    | some note =>
      if song_time ≥ note.time - appear_lead then
        { s with active_note := some s.current_index,
                 current_index := s.current_index + 1 }
      else s

/-- Source `RhythmMode.stop_audio` (lines 168-187): stop and discard the
scheduler thread if there is one, then — independently — call
`audio.stop_all()` if a sound engine is attached. -/
def stop_audio (s : RhythmState) : RhythmState × List REffect :=
  let p :=
    match s.audio_scheduler with
    | some _ => ({ s with audio_scheduler := none }, [REffect.schedStop])
    | none => (s, ([] : List REffect))
  if p.1.audioPresent then (p.1, p.2 ++ [REffect.stopAll]) else p

/-- Source `RhythmMode._check_done_and_finish` (lines 656-679): once
`current_index` has passed the last note, the active slot is empty, and
every note is judged, the phase flips to DONE and `stop_audio` runs. -/
def checkDoneAndFinish (s : RhythmState) : RhythmState × List REffect :=
  if s.current_index < s.chart_notes.length then (s, [])
  else if s.active_note.isSome then (s, [])
  else if ¬ (s.chart_notes.all (fun n => n.judged)) then (s, [])
  else stop_audio { s with phase := Phase.done }

/-- Source `RhythmMode.update` (lines 549-580), the per-frame step.  The
WAIT_COUNTDOWN and DONE branches only render and return; `_render_play`
touches no engine state and is dropped here. -/
def update (s : RhythmState) (now : ℚ) : RhythmState × List REffect :=
  if s.phase = Phase.wait_countdown then (s, [])
  else if s.phase = Phase.done then (s, [])
  else
    let s0 :=
      match s.play_start with
      | none => { s with play_start := some now }
      | some _ => s
    let song_time := now - s0.play_start.getD now
    let s1 := updateActiveNote s0 song_time
    let cutoff := song_time - (FALL_DURATION_SEC + MISS_LATE_SEC)
    let s2 := { s1 with
      render_start_index := advanceRenderIndex s1.chart_notes cutoff s1.render_start_index }
    let s3 := spawnNextNoteIfNeeded s2 song_time
    checkDoneAndFinish s3

/-- Source `RhythmMode.start_play_after_countdown` (lines 251-280): ignored
unless the phase is WAIT_COUNTDOWN; otherwise enters PLAY with
`play_start = now`, resets the per-run indices, and hands `play_start` to
the scheduler via `set_start_time` before starting its thread. -/
def start_play_after_countdown (s : RhythmState) (now : ℚ) : RhythmState :=
  if s.phase ≠ Phase.wait_countdown then s
  else
    let s1 := { s with
      phase := Phase.play,
      play_start := some now,
      current_index := 0,
      active_note := none,
      render_start_index := 0,
      feedback_color := none,
      feedback_until_song_time := none }
    match s1.audio_scheduler with
    | some sch =>
        { s1 with audio_scheduler := some { sch with start_time := some now } }
    | none => s1

/-! ## HighScoreStore
(`src/logic/high_scores.py`) -/

/-- The `_scores` dict of `HighScoreStore`, modelled as a total function
from difficulty keys to scores; `lookup` is `dict.get(key, 0)` (absent
keys read as the constructor default `0`). -/
structure HSStore where
  scores : String → ℤ

/-- A freshly constructed store with no saved file: all difficulties at 0
(`high_scores.py` lines 20-24). -/
def initHS : HSStore := ⟨fun _ => 0⟩

/-- Source `HighScoreStore.get_best` (lines 55-59). -/
def get_best (st : HSStore) (difficulty : String) : ℤ :=
  st.scores difficulty

/-- Source `HighScoreStore.update_if_better` (lines 61-71): if
`new_score >= old`, store it (the `_save()` disk write is I/O and elided)
and return `True`; otherwise leave the store alone and return `False`. -/
def update_if_better (st : HSStore) (difficulty : String) (new_score : ℤ) :
    HSStore × Bool :=
  if new_score ≥ st.scores difficulty then
    (⟨fun k => if k = difficulty then new_score else st.scores k⟩, true)
  else (st, false)

/-! ## Python string helpers

The protocol code manipulates command lines with `str.upper()`,
`str.lower()`, `str.strip()`, `str.startswith()` and `str.split(":")`.
These are re-implemented structurally over the character list of a
`String` (all protocol text is ASCII), because the claims evaluate them
on concrete command lines. -/

/-- Source `str.upper()` for the ASCII command strings. -/
def pyUpper (s : String) : String := ⟨s.data.map Char.toUpper⟩

/-- Source `str.lower()` for the ASCII command strings. -/
def pyLower (s : String) : String := ⟨s.data.map Char.toLower⟩

/-- Source `str.strip()`: drop whitespace from both ends. -/
def pyStrip (s : String) : String :=
  ⟨((s.data.dropWhile Char.isWhitespace).reverse.dropWhile Char.isWhitespace).reverse⟩

/-- Character-list core of `str.startswith`. -/
def listStarts : List Char → List Char → Bool
  | _, [] => true
  | [], _ :: _ => false
  | c :: s, d :: p => c = d && listStarts s p

/-- Source `s.startswith(p)`. -/
def pyStarts (s p : String) : Bool := listStarts s.data p.data

/-- The characters after the first `sep` in the list, if any. -/
def afterChar (sep : Char) : List Char → Option (List Char)
  | [] => none
  | c :: t => if c = sep then some t else afterChar sep t

/-- Python `line.split(":", 1)[1]`: everything after the first colon.
Call sites are guarded by a prefix check that guarantees a colon exists;
the `getD` default covers the impossible branch. -/
def afterFirstColon (line : String) : String :=
  ⟨(afterChar ':' line.data).getD []⟩

/-- Python `line.split(":", 2)[2]`: everything after the second colon
(call sites guarantee two colons exist). -/
def afterSecondColon (line : String) : String :=
  ⟨((afterChar ':' line.data).bind (afterChar ':')).getD []⟩

/-! ## InputManager: post-game timeline and Pico messages
(`src/logic/input_manager.py`) -/

/-- The post-game stage strings of `_rhythm_postgame_stage`
(`input_manager.py` line 45). -/
inductive PGStage
  | result_scroll
  | user_label
  | user_score
  | best_label
  | best_score
deriving DecidableEq, Repr

/-- Commands the post-game timeline sends to the Pico, plus the
`self.rhythm.reset(now)` call it makes at the very end.  Each `send`
corresponds to one `pico_display.send_rhythm_*` line. -/
inductive IMEffect
  | challenge_success
  | challenge_fail
  | user_score_label
  | user_score (text : String)
  | best_score_label
  | best_score (text : String)
  | back_to_title
  | rhythmReset
deriving DecidableEq, Repr

/-- The `InputManager` fields that drive the rhythm post-game timeline
(lines 36-50).  `picoPresent` models `self.pico_display is not None`. -/
structure IMState where
  current_mode : String
  picoPresent : Bool
  high_scores : HSStore
  rhythm_postgame_started : Bool
  rhythm_postgame_stage : Option PGStage
  rhythm_postgame_t0 : ℚ
  rhythm_last_score : ℤ
  rhythm_last_best : ℤ
  rhythm_last_max_score : ℤ
  rhythm_last_difficulty : String

/-- Python string formatting of score over max, joined with a slash. -/
def scoreText (a b : ℤ) : String := toString a ++ "/" ++ toString b

/-- Source `InputManager._maybe_run_rhythm_postgame_timeline`
(`input_manager.py` lines 286-418), as a pure step: the rhythm mode's
observable fields (`phase`, `score`, `max_score`, `difficulty`) are
inputs, and the commands sent this tick are collected as effects. -/
def maybeRunRhythmPostgameTimeline (s : IMState) (rphase : Phase)
    (rscore rmax : ℤ) (rdiff : String) (now : ℚ) : IMState × List IMEffect :=
  if rphase ≠ Phase.done then
    ({ s with rhythm_postgame_started := false, rhythm_postgame_stage := none }, [])
  else if ¬ s.picoPresent then (s, [])
  else if ¬ s.rhythm_postgame_started then
    -- first time seeing DONE: read scores, update the record, send banner
    let best_before := get_best s.high_scores rdiff
    let res := update_if_better s.high_scores rdiff rscore
    let s1 := { s with
      rhythm_postgame_started := true,
      rhythm_postgame_stage := some PGStage.result_scroll,
      rhythm_postgame_t0 := now,
      rhythm_last_score := rscore,
      rhythm_last_max_score := rmax,
      rhythm_last_difficulty := rdiff,
      high_scores := res.1,
      rhythm_last_best := max best_before rscore }
    (s1, [if res.2 then IMEffect.challenge_success else IMEffect.challenge_fail])
  else
    let elapsed := now - s.rhythm_postgame_t0
    match s.rhythm_postgame_stage with
    | some PGStage.result_scroll =>
      if elapsed ≥ 4 then
        ({ s with rhythm_postgame_stage := some PGStage.user_label,
                  rhythm_postgame_t0 := now },
         [IMEffect.user_score_label])
      else (s, [])
    | some PGStage.user_label =>
      if elapsed ≥ 3 then
        let text := if s.rhythm_last_max_score > 0 then
            scoreText s.rhythm_last_score s.rhythm_last_max_score
          else toString s.rhythm_last_score
        ({ s with rhythm_postgame_stage := some PGStage.user_score,
                  rhythm_postgame_t0 := now },
         [IMEffect.user_score text])
      else (s, [])
    | some PGStage.user_score =>
      if elapsed ≥ 3 then
        ({ s with rhythm_postgame_stage := some PGStage.best_label,
                  rhythm_postgame_t0 := now },
         [IMEffect.best_score_label])
      else (s, [])
    | some PGStage.best_label =>
      if elapsed ≥ 3 then
        let text := if s.rhythm_last_max_score > 0 then
            scoreText s.rhythm_last_best s.rhythm_last_max_score
          else toString s.rhythm_last_best
        ({ s with rhythm_postgame_stage := some PGStage.best_score,
                  rhythm_postgame_t0 := now },
         [IMEffect.best_score text])
      else (s, [])
    | some PGStage.best_score =>
      if elapsed ≥ 3 then
        ({ s with rhythm_postgame_started := false,
                  rhythm_postgame_stage := none },
         [IMEffect.back_to_title, IMEffect.rhythmReset])
      else (s, [])
    | none => (s, [])

/-- Source `InputManager._handle_pico_message` (lines 131-151): the *only* Pico
line the host reacts to is `RHYTHM:COUNTDOWN_DONE` (and only in rhythm
mode), which triggers `rhythm.start_play_after_countdown(now)`.  Every
other device→host line — including `RHYTHM:BEST_SCORE_DONE` — falls
through with no effect. -/
def handlePicoMessage (im : IMState) (r : RhythmState) (msg : String)
    (now : ℚ) : IMState × RhythmState :=
  let text := pyStrip msg
  if text = "" then (im, r)
  else if pyStarts (pyUpper text) "RHYTHM:COUNTDOWN_DONE" then
    if im.current_mode = "rhythm" then (im, start_play_after_countdown r now)
    else (im, r)
  else (im, r)

/-! ## Remote display state machine
(`src/code.py`, the Pico side) -/

/-- The `STATE` strings of `code.py` (values taken by the global
`STATE`). -/
inductive PState
  | idle
  | led_off
  | menu
  | piano
  | song
  | rhythm_title
  | rhythm_attract
  | rhythm_countdown
  | rhythm_hold_level
  | rhythm_ingame
  | rhythm_post
  | rhythm_scroll
  | unknown
  | unknown_cmd
deriving DecidableEq, Repr

/-- The `LAST_SCORE_KIND` strings (`code.py` line 161). -/
inductive ScoreKind
  | result
  | user
  | best
deriving DecidableEq, Repr

/-- Source `COUNTDOWN_TOTAL_SEC = 5.0` (`code.py` line 113). -/
def COUNTDOWN_TOTAL_SEC : ℚ := 5

/-- Source `RHYTHM_TITLE_HOLD_SEC = 3.0` (line 119). -/
def RHYTHM_TITLE_HOLD_SEC : ℚ := 3

/-- Source `RHYTHM_ATTRACT_FRAME_SEC = 1.0` (line 127). -/
def RHYTHM_ATTRACT_FRAME_SEC : ℚ := 1

/-- Source `MENU_FRAME_DURATION = 0.6` (line 293). -/
def MENU_FRAME_DURATION : ℚ := 6/10

/-- Source `MARQUEE_TOTAL_SEC = 6.0` (line 147). -/
def MARQUEE_TOTAL_SEC : ℚ := 6

/-- Source `USER_SCORE_HOLD_SEC = 5.0` (line 154). -/
def USER_SCORE_HOLD_SEC : ℚ := 5

/-- Source `BEST_SCORE_HOLD_SEC = 2.0` (line 155). -/
def BEST_SCORE_HOLD_SEC : ℚ := 2

/-- Source `RESULT_HOLD_SEC = 3.0` (line 156). -/
def RESULT_HOLD_SEC : ℚ := 3

/-- Source `PENDING_MAX = 32` (line 168). -/
def PENDING_MAX : ℕ := 32

/-- Source `SCROLL_SPEED_PX = 16.0` (line 144). -/
def SCROLL_SPEED_PX : ℚ := 16

/-- Source `SCROLL_GAP_PX = 12` (line 145). -/
def SCROLL_GAP_PX : ℚ := 12

/-- Panel width (`WIDTH = display.width = 32`, lines 54-80). -/
def PANEL_WIDTH : ℚ := 32

/-- Advance width of one marquee character.  The exact pixel metric of
the tom-thumb font is display detail irrelevant to the verified claims;
only that the marquee loops is modelled. -/
def labelWidth (text : String) : ℚ := 4 * text.length

/-- The global mutable state of `code.py` (lines 106-168): UI state,
lock windows, the pending-command FIFO, marquee scroll state, and the
acknowledgement bookkeeping. -/
structure PicoState where
  state : PState
  state_enter_time : ℚ
  countdown_done_sent : Bool
  current_rhythm_level : Option String
  rhythm_attract_index : ℕ
  rhythm_attract_last_switch : ℚ
  menu_index : ℕ
  menu_last_switch : ℚ
  marquee_lock_until : ℚ
  score_lock_until : ℚ
  last_score_kind : Option ScoreKind
  best_score_done_sent : Bool
  pending_queue : List String
  scroll_label : Option String
  scroll_x : ℚ
  scroll_last_t : ℚ
deriving DecidableEq, Repr

/-- Source `set_state` (`code.py` lines 173-182).  Python calls
`time.monotonic()` inside; the sample is passed as `now`. -/
def set_state (s : PicoState) (new : PState) (now : ℚ) : PicoState :=
  if s.state = new ∧ new ≠ PState.rhythm_scroll then s
  else
    let s1 := { s with state := new, state_enter_time := now }
    if new = PState.rhythm_countdown then { s1 with countdown_done_sent := false }
    else s1

/-- Source `start_marquee` (lines 246-281): pad the text, reset the scroll
position, enter `RHYTHM_SCROLL` directly, and hold the marquee lock for
`MARQUEE_TOTAL_SEC`.  The label colour is display-only and dropped. -/
def start_marquee (s : PicoState) (text : String) (now : ℚ) : PicoState :=
  { s with
    scroll_label := some ( "   " ++ text ++ "   "),
    scroll_x := PANEL_WIDTH,
    scroll_last_t := now,
    state := PState.rhythm_scroll,
    state_enter_time := now,
    marquee_lock_until := now + MARQUEE_TOTAL_SEC }

/-- Source `enter_menu_mode` (lines 297-303). -/
def enter_menu_mode (s : PicoState) (now : ℚ) : PicoState :=
  let s1 := set_state s PState.menu now
  { s1 with menu_index := 0, menu_last_switch := now }

/-- Source `update_menu_mode` (lines 305-311); `MENU_BMP_PATHS` has 5 frames. -/
def update_menu_mode (s : PicoState) (now : ℚ) : PicoState :=
  if now - s.menu_last_switch ≥ MENU_FRAME_DURATION then
    { s with menu_last_switch := now, menu_index := (s.menu_index + 1) % 5 }
  else s

/-- Source `enter_rhythm_title` (lines 316-323). -/
def enter_rhythm_title (s : PicoState) (now : ℚ) : PicoState :=
  let s1 := { s with
    current_rhythm_level := none,
    rhythm_attract_index := 0,
    rhythm_attract_last_switch := 0 }
  set_state s1 PState.rhythm_title now

/-- Source `enter_rhythm_attract` (lines 325-331). -/
def enter_rhythm_attract (s : PicoState) (now : ℚ) : PicoState :=
  let s1 := { s with rhythm_attract_index := 0, rhythm_attract_last_switch := now }
  set_state s1 PState.rhythm_attract now

/-- Source `update_rhythm_attract` (lines 333-339); `RHYTHM_ATTRACT_PATHS` has
5 frames. -/
def update_rhythm_attract (s : PicoState) (now : ℚ) : PicoState :=
  if now - s.rhythm_attract_last_switch ≥ RHYTHM_ATTRACT_FRAME_SEC then
    { s with rhythm_attract_last_switch := now,
             rhythm_attract_index := (s.rhythm_attract_index + 1) % 5 }
  else s

/-- Source `_set_level_from_line` (lines 363-373): parse `RHYTHM:LEVEL:*`. -/
def levelFromLine (line : String) : Option String :=
  let lvl := pyLower (pyStrip (afterSecondColon line))
  if lvl = "easy" ∨ lvl = "medium" ∨ lvl = "hard" then some lvl else none

/-- Source `_cmd_is_urgent` (lines 375-388). -/
def cmdIsUrgent (up : String) : Bool :=
  if up = "LED:CLEAR" then true
  else if pyStarts up "MODE:" then true
  else if pyStarts up "RHYTHM:LEVEL:" then true
  else if pyStarts up "RHYTHM:COUNTDOWN" then true
  else false

/-- Source `_enqueue` (lines 390-396): append to the FIFO; at capacity, keep
only the newest `PENDING_MAX - 1` entries first (dropping the oldest). -/
def enqueue (q : List String) (line : String) : List String :=
  if q.length ≥ PENDING_MAX then
    q.drop (q.length - (PENDING_MAX - 1)) ++ [line]
  else q ++ [line]

/-- Source `_handle_line` (lines 398-502): dispatch one sanitized command line.
All `show_*` calls are display-only and dropped; every state-variable
assignment is kept. -/
def handle_line (s : PicoState) (line : String) (now : ℚ) : PicoState :=
  let up := pyUpper line
  if up = "LED:CLEAR" then set_state s PState.led_off now
  else if pyStarts up "MODE:" then
    let name := pyLower (pyStrip (afterFirstColon line))
    if name = "menu" then enter_menu_mode s now
    else if name = "piano" then set_state s PState.piano now
    else if name = "rhythm" then enter_rhythm_title s now
    else if name = "song" then set_state s PState.song now
    else set_state s PState.unknown now
  else if up = "RHYTHM:BACK_TO_TITLE" then enter_rhythm_title s now
  else if pyStarts up "RHYTHM:LEVEL:" then
    let s1 := { s with current_rhythm_level := levelFromLine line }
    set_state s1 PState.rhythm_countdown now
  else if pyStarts up "RHYTHM:COUNTDOWN" then
    set_state s PState.rhythm_countdown now
  else if pyStarts up "RHYTHM:INGAME" then
    set_state s PState.rhythm_ingame now
  else if pyStarts up "RHYTHM:RESULT:" then
    let s1 := set_state s PState.rhythm_post now
    { s1 with score_lock_until := now + RESULT_HOLD_SEC,
              last_score_kind := some ScoreKind.result,
              best_score_done_sent := false }
  else if up = "RHYTHM:CHALLENGE_FAIL" then start_marquee s "CHALLENGE FAIL" now
  else if up = "RHYTHM:CHALLENGE_SUCCESS" then start_marquee s "NEW RECORD!" now
  else if up = "RHYTHM:USER_SCORE_LABEL" then start_marquee s "YOUR SCORE" now
  else if pyStarts up "RHYTHM:USER_SCORE:" then
    let s1 := set_state s PState.rhythm_post now
    { s1 with score_lock_until := now + USER_SCORE_HOLD_SEC,
              last_score_kind := some ScoreKind.user,
              best_score_done_sent := false }
  else if up = "RHYTHM:BEST_SCORE_LABEL" then start_marquee s "BEST SCORE" now
  else if pyStarts up "RHYTHM:BEST_SCORE:" then
    let s1 := set_state s PState.rhythm_post now
    { s1 with score_lock_until := now + BEST_SCORE_HOLD_SEC,
              last_score_kind := some ScoreKind.best,
              best_score_done_sent := false }
  else set_state s PState.unknown_cmd now

/-- The sanitizing of `process_serial_command` (lines 515-518): strip NUL
and CR, keep printable ASCII, strip whitespace.  The printable-ASCII
filter already removes NUL and CR. -/
def sanitize (line : String) : String :=
  pyStrip ⟨line.data.filter (fun c => decide (32 ≤ c.toNat) && decide (c.toNat ≤ 126))⟩

/-- Source `process_serial_command` (lines 507-538) applied to one received
line: sanitize; during an active marquee or static-score lock a
non-urgent command is enqueued, otherwise the line is handled at once.
Returns the new state plus the lines handled immediately. -/
def process_serial_command (s : PicoState) (rawLine : String) (now : ℚ) :
    PicoState × List String :=
  let line := sanitize rawLine
  if line = "" then (s, [])
  else
    let up := pyUpper line
    if s.state = PState.rhythm_scroll ∧ now < s.marquee_lock_until ∧
        cmdIsUrgent up = false then
      ({ s with pending_queue := enqueue s.pending_queue line }, [])
    else if s.state = PState.rhythm_post ∧ now < s.score_lock_until ∧
        cmdIsUrgent up = false then
      ({ s with pending_queue := enqueue s.pending_queue line }, [])
    else (handle_line s line now, [line])

/-- The acknowledgement block of `update_state` (`code.py` lines
553-561): emit the one-shot `RHYTHM:BEST_SCORE_DONE` once the BEST-score
hold has expired. -/
def update_state_ack (s : PicoState) (now : ℚ) : PicoState × List String :=
  if s.state = PState.rhythm_post ∧ s.last_score_kind = some ScoreKind.best ∧
      s.best_score_done_sent = false ∧ now ≥ s.score_lock_until then
    ({ s with best_score_done_sent := true }, [ "RHYTHM:BEST_SCORE_DONE"])
  else (s, ([] : List String))

/-- The replay block of `update_state` (lines 563-569): if no lock
window is active, pop one queued command and handle it. -/
def update_state_replay (s : PicoState) (now : ℚ) : PicoState × List String :=
  if (¬ (s.state = PState.rhythm_scroll ∧ now < s.marquee_lock_until)) ∧
     (¬ (s.state = PState.rhythm_post ∧ now < s.score_lock_until)) then
    match s.pending_queue with
    | [] => (s, ([] : List String))
    | c :: rest => (handle_line { s with pending_queue := rest } c now, [c])
  else (s, ([] : List String))

/-- The per-state animation block of `update_state` (lines 571-620);
its second component is the lines it prints (`RHYTHM:COUNTDOWN_DONE`). -/
def update_state_anim (s : PicoState) (now : ℚ) : PicoState × List String :=
  if s.state = PState.led_off then (s, [])
  else if s.state = PState.menu then (update_menu_mode s now, [])
  else if s.state = PState.rhythm_title then
    (if now - s.state_enter_time ≥ RHYTHM_TITLE_HOLD_SEC then
       enter_rhythm_attract s now
     else s, [])
  else if s.state = PState.rhythm_attract then
    (update_rhythm_attract s now, [])
  else if s.state = PState.rhythm_scroll then
    match s.scroll_label with
    | none => (s, [])
    | some lbl =>
      let dt := now - s.scroll_last_t
      let x := s.scroll_x - SCROLL_SPEED_PX * dt
      let sc := { s with scroll_last_t := now, scroll_x := x }
      (if x < -(labelWidth lbl) - SCROLL_GAP_PX then
         { sc with scroll_x := PANEL_WIDTH }
       else sc, [])
  else if s.state = PState.rhythm_countdown then
    if now - s.state_enter_time < COUNTDOWN_TOTAL_SEC then (s, [])
    else if s.countdown_done_sent = false then
      (set_state { s with countdown_done_sent := true }
        PState.rhythm_hold_level now, [ "RHYTHM:COUNTDOWN_DONE"])
    else (s, [])
  else (s, [])

/-- Source `update_state` (lines 543-620): the acknowledgement block, then the
queue replay, then the animation step, in source order.  Returns
`(new state, lines printed to serial, queued lines replayed)`. -/
def update_state (s : PicoState) (now : ℚ) : PicoState × List String × List String :=
  let a := update_state_ack s now
  let r := update_state_replay a.1 now
  let m := update_state_anim r.1 now
  (m.1, a.2 ++ m.2, r.2)

/-- Repeated `update_state` ticks with no intervening serial input
(the replay phase of the main loop, lines 627-632), collecting every
replayed queue entry. -/
def deviceTicks (s : PicoState) (ts : List ℚ) : PicoState × List String :=
  match ts with
  | [] => (s, [])
  | t :: ts' =>
    let r := update_state s t
    let rest := deviceTicks r.1 ts'
    (rest.1, r.2.2 ++ rest.2)

/-! ## Concrete example states

Reachable snapshots used to evaluate the model at specific inputs. -/

/-- A session in PLAY (`play_start = 0`) whose single chart note
(`time = 1`, lane 0) has spawned (`active_note = some 0`,
`current_index = 1`) and is still unjudged: the natural end of a 1-note
run, with a live scheduler and a sound engine attached. -/
def doneFrameState : RhythmState where
  phase := Phase.play
  play_start := some 0
  chart_notes := [{ time := 1, midi_note := 60, key := 0, velocity := 1 }]
  current_index := 1
  active_note := some 0
  score := 0
  total_notes := 1
  max_score := 2
  feedback_until_song_time := none
  feedback_color := none
  render_start_index := 0
  audio_scheduler := some { start_time := some 0, idx := 1, stopFlag := false }
  audioPresent := true

/-- A session in PLAY with two lane-0 notes at `time = 1` and
`time = 1.3`; the first has spawned and neither is judged.  At
`song_time = 1.2` the second note is the nearer unjudged lane-0 note. -/
def twoNoteState : RhythmState where
  phase := Phase.play
  play_start := some 0
  chart_notes :=
    [{ time := 1, midi_note := 60, key := 0, velocity := 1 },
     { time := 13/10, midi_note := 62, key := 0, velocity := 1 }]
  current_index := 1
  active_note := some 0
  score := 0
  total_notes := 2
  max_score := 4
  feedback_until_song_time := none
  feedback_color := none
  render_start_index := 0
  audio_scheduler := none
  audioPresent := true

/-- A lane-0 `NOTE_ON` input event. -/
def lane0NoteOn : InputEvent where
  type := EventType.note_on
  key := some 0

/-- A naturally finished run one frame before the DONE transition:
every chart note judged, active slot cleared, `current_index` past the
end, no stop ever requested, sound engine attached. -/
def judgedState : RhythmState where
  phase := Phase.play
  play_start := some 0
  chart_notes :=
    [{ time := 1, midi_note := 60, key := 0, velocity := 1,
       hit := true, judged := true, score := 2 }]
  current_index := 1
  active_note := none
  score := 2
  total_notes := 1
  max_score := 2
  feedback_until_song_time := none
  feedback_color := none
  render_start_index := 0
  audio_scheduler := some { start_time := some 0, idx := 1, stopFlag := false }
  audioPresent := true

/-- A session still in difficulty selection (WAIT_COUNTDOWN), with a
fresh scheduler bound. -/
def waitState : RhythmState where
  phase := Phase.wait_countdown
  play_start := none
  chart_notes := [{ time := 1, midi_note := 60, key := 0, velocity := 1 }]
  current_index := 0
  active_note := none
  score := 0
  total_notes := 1
  max_score := 2
  feedback_until_song_time := none
  feedback_color := none
  render_start_index := 0
  audio_scheduler := some { start_time := none, idx := 0, stopFlag := false }
  audioPresent := true

/-- The host orchestrator sitting in the `best_score` stage (the static
best-score screen is showing on the remote), stage clock at 0. -/
def pgBestState : IMState where
  current_mode := "rhythm"
  picoPresent := true
  high_scores := initHS
  rhythm_postgame_started := true
  rhythm_postgame_stage := some PGStage.best_score
  rhythm_postgame_t0 := 0
  rhythm_last_score := 5
  rhythm_last_best := 5
  rhythm_last_max_score := 6
  rhythm_last_difficulty := "easy"

/-- The remote device holding the static BEST-score screen: score lock
until `t = 2`, acknowledgement not yet sent, empty pending queue. -/
def picoBestHold : PicoState where
  state := PState.rhythm_post
  state_enter_time := 0
  countdown_done_sent := true
  current_rhythm_level := some "easy"
  rhythm_attract_index := 0
  rhythm_attract_last_switch := 0
  menu_index := 0
  menu_last_switch := 0
  marquee_lock_until := 0
  score_lock_until := 2
  last_score_kind := some ScoreKind.best
  best_score_done_sent := false
  pending_queue := []
  scroll_label := none
  scroll_x := 0
  scroll_last_t := 0

/-- The remote device mid-marquee: `RHYTHM_SCROLL` with the marquee lock
held until `t = 6`, two commands already queued. -/
def picoMarquee : PicoState where
  state := PState.rhythm_scroll
  state_enter_time := 0
  countdown_done_sent := true
  current_rhythm_level := some "easy"
  rhythm_attract_index := 0
  rhythm_attract_last_switch := 0
  menu_index := 0
  menu_last_switch := 0
  marquee_lock_until := 6
  score_lock_until := 0
  last_score_kind := none
  best_score_done_sent := false
  pending_queue := [ "RHYTHM:BEST_SCORE:10/20", "RHYTHM:BACK_TO_TITLE"]
  scroll_label := some "   BEST SCORE   "
  scroll_x := 32
  scroll_last_t := 0

/-- A sorted raw note list on which clustering actually merges: the
first two notes are 50 ms apart (one cluster, the higher pitch 72 wins),
the last two are 30 ms apart (second cluster, pitch 55 wins). -/
def egRaw : List ChartNote :=
  [{ time := 0, midi_note := 60, key := 0, velocity := 1 },
   { time := 5/100, midi_note := 72, key := 2, velocity := 1 },
   { time := 3/10, midi_note := 50, key := 0, velocity := 1 },
   { time := 33/100, midi_note := 55, key := 0, velocity := 1 }]

/-! ## Theorems -/

/-! ### C10: `start_play_after_countdown` outside WAIT_COUNTDOWN -/

/-- C10: calling `start_play_after_countdown` when the phase is not
WAIT_COUNTDOWN (e.g. a duplicate countdown acknowledgement while already
playing or done) is a complete no-op: the whole state — phase,
`play_start`, chart, score, indices, and the audio scheduler — is
returned unchanged. -/
theorem start_play_noop_outside_countdown (s : RhythmState) (now : ℚ)
    (h : s.phase ≠ Phase.wait_countdown) :
    start_play_after_countdown s now = s := by
  unfold start_play_after_countdown
  rw [if_pos h]

/-- Witness for C10 at a concrete state in PLAY. -/
theorem start_play_noop_outside_countdown_witness :
    doneFrameState.phase ≠ Phase.wait_countdown ∧
    start_play_after_countdown doneFrameState 5 = doneFrameState :=
  ⟨by decide, start_play_noop_outside_countdown doneFrameState 5 (by decide)⟩

/-! ### C4: the Countdown → Playing transition's time origin -/

/-- C4 (amended): on the WAIT_COUNTDOWN → PLAY transition the shared
time origin is `play_start = now` — there is no lead-in offset — and the
very same origin is handed to the `AudioScheduler` via
`set_start_time(play_start)`. -/
theorem start_play_sets_shared_origin (s : RhythmState) (now : ℚ)
    (h : s.phase = Phase.wait_countdown) :
    (start_play_after_countdown s now).phase = Phase.play
    ∧ (start_play_after_countdown s now).play_start = some now
    ∧ (∀ sch, s.audio_scheduler = some sch →
        (start_play_after_countdown s now).audio_scheduler
          = some { sch with start_time := some now })
    ∧ (s.audio_scheduler = none →
        (start_play_after_countdown s now).audio_scheduler = none) := by
  unfold start_play_after_countdown
  rw [if_neg (by simp [h])]
  cases hs : s.audio_scheduler with
  | none => simp [hs]
  | some sch => simp [hs]

/-- Counterexample to C4 as stated: at a concrete transition at
`now = 10` the origin is set to `10` itself, not to `now + lead_in` for
a lead-in of ≈ 1 s. -/
theorem start_play_no_lead_in_cex :
    (start_play_after_countdown waitState 10).play_start = some 10
    ∧ (start_play_after_countdown waitState 10).play_start ≠ some (10 + 1) := by
  constructor
  · rfl
  · show some (10 : ℚ) ≠ some (10 + 1)
    norm_num

/-- Witness for the amended C4 at the concrete WAIT_COUNTDOWN state. -/
theorem start_play_sets_shared_origin_witness :
    waitState.phase = Phase.wait_countdown ∧
    ((start_play_after_countdown waitState 7).phase = Phase.play
    ∧ (start_play_after_countdown waitState 7).play_start = some 7
    ∧ (∀ sch, waitState.audio_scheduler = some sch →
        (start_play_after_countdown waitState 7).audio_scheduler
          = some { sch with start_time := some 7 })
    ∧ (waitState.audio_scheduler = none →
        (start_play_after_countdown waitState 7).audio_scheduler = none)) :=
  ⟨rfl, start_play_sets_shared_origin waitState 7 rfl⟩

/-! ### C9: `HighScoreStore.update_if_better` -/

/-- The stored value after one `update_if_better` call is the max of the
old value and the submission. -/
theorem update_if_better_scores (st : HSStore) (d : String) (x : ℤ) :
    ((update_if_better st d x).1).scores d = max (st.scores d) x := by
  unfold update_if_better
  split
  · next h => simp [max_eq_right h]
  · next h => simp [max_eq_left (le_of_lt (lt_of_not_ge h))]

/-- Source `List.foldl max` over submissions computes the running maximum of
the stored value. -/
theorem foldl_update_scores (d : String) (subs : List ℤ) (st : HSStore) :
    ((subs.foldl (fun acc x => (update_if_better acc d x).1) st).scores d)
      = subs.foldl max (st.scores d) := by
  induction subs generalizing st with
  | nil => rfl
  | cons x t ih =>
    simp only [List.foldl_cons]
    rw [ih, update_if_better_scores]

/-- A left fold of `max` lands on its seed or one of the elements. -/
theorem foldl_max_mem (l : List ℤ) (a : ℤ) : l.foldl max a ∈ a :: l := by
  induction l generalizing a with
  | nil => simp
  | cons x t ih =>
    have h := ih (max a x)
    rcases List.mem_cons.mp h with h1 | h2
    · rcases max_choice a x with hc | hc <;> rw [List.foldl_cons, h1, hc] <;> simp
    · simp only [List.foldl_cons, List.mem_cons]
      right
      exact List.mem_cons.mp (List.mem_cons.mpr (Or.inr h2))

/-- A left fold of `max` bounds its seed and every element. -/
theorem le_foldl_max (l : List ℤ) (a : ℤ) :
    a ≤ l.foldl max a ∧ ∀ x ∈ l, x ≤ l.foldl max a := by
  induction l generalizing a with
  | nil => simp
  | cons y t ih =>
    obtain ⟨h1, h2⟩ := ih (max a y)
    refine ⟨le_trans (le_max_left a y) h1, ?_⟩
    intro x hx
    rcases List.mem_cons.mp hx with rfl | hx
    · exact le_trans (le_max_right a x) h1
    · exact h2 x hx

/-- C9: `update_if_better` returns `True` iff the submission is ≥ the
previously stored value; the stored value never decreases; and over any
sequence of non-negative submissions from a fresh store the final stored
value is the maximum ever submitted (in particular it is an upper bound
of, and — for a non-empty sequence — a member of, the submissions). -/
theorem update_if_better_monotone_max :
    (∀ (st : HSStore) (d : String) (x : ℤ),
        ((update_if_better st d x).2 = true ↔ st.scores d ≤ x))
    ∧ (∀ (st : HSStore) (d : String) (x : ℤ),
        st.scores d ≤ ((update_if_better st d x).1).scores d)
    ∧ (∀ (d : String) (subs : List ℤ), (∀ x ∈ subs, 0 ≤ x) →
        ((subs.foldl (fun acc x => (update_if_better acc d x).1) initHS).scores d
            = subs.foldl max 0)
        ∧ (∀ x ∈ subs,
            x ≤ (subs.foldl (fun acc x => (update_if_better acc d x).1) initHS).scores d)
        ∧ (subs ≠ [] →
            (subs.foldl (fun acc x => (update_if_better acc d x).1) initHS).scores d
              ∈ subs)) := by
  refine ⟨?_, ?_, ?_⟩
  · intro st d x
    unfold update_if_better
    split
    · next h => simpa using h
    · next h => simpa using lt_of_not_ge h
  · intro st d x
    rw [update_if_better_scores]
    exact le_max_left _ _
  · intro d subs hnn
    have hfold : ((subs.foldl (fun acc x => (update_if_better acc d x).1) initHS).scores d
        = subs.foldl max 0) := by
      rw [foldl_update_scores]
      rfl
    refine ⟨hfold, ?_, ?_⟩
    · intro x hx
      rw [hfold]
      exact (le_foldl_max subs 0).2 x hx
    · intro hne
      rw [hfold]
      rcases List.mem_cons.mp (foldl_max_mem subs 0) with h0 | hmem
      · match subs, hne with
        | y :: t, _ =>
          have hy : y ≤ (y :: t).foldl max 0 := (le_foldl_max (y :: t) 0).2 y (by simp)
          have hy0 : (0 : ℤ) ≤ y := hnn y (by simp)
          have : y = 0 := le_antisymm (h0 ▸ hy) hy0
          rw [h0, ← this]
          simp
      · exact hmem

/-- Witness for C9: submissions 3, 1, 5 on "easy" from a fresh store. -/
theorem update_if_better_monotone_max_witness :
    (∀ x ∈ ([3, 1, 5] : List ℤ), 0 ≤ x) ∧
    ((([3, 1, 5] : List ℤ).foldl
          (fun acc x => (update_if_better acc "easy" x).1) initHS).scores "easy"
        = ([3, 1, 5] : List ℤ).foldl max 0
    ∧ (∀ x ∈ ([3, 1, 5] : List ℤ),
        x ≤ (([3, 1, 5] : List ℤ).foldl
          (fun acc x => (update_if_better acc "easy" x).1) initHS).scores "easy")
    ∧ (([3, 1, 5] : List ℤ) ≠ [] →
        (([3, 1, 5] : List ℤ).foldl
          (fun acc x => (update_if_better acc "easy" x).1) initHS).scores "easy"
          ∈ ([3, 1, 5] : List ℤ))) :=
  ⟨by decide, update_if_better_monotone_max.2.2 "easy" [3, 1, 5] (by decide)⟩

/-! ### C7: the AudioScheduler worker loop -/

/-- Case analysis of one scheduler step: either nothing is played and
the index is unchanged, or exactly the note at the current index is
played and the index advances by one. -/
theorem schedStepIn_spec (notes : List ChartNote) (s : SchedState) (i : SchedIn) :
    ((schedStepIn notes s i).2 = none ∧ (schedStepIn notes s i).1.idx = s.idx)
    ∨ ((schedStepIn notes s i).1.idx = s.idx + 1
        ∧ ∃ note, (schedStepIn notes s i).2 = some (s.idx, note)
            ∧ notes[s.idx]? = some note) := by
  cases i with
  | stop => exact Or.inl ⟨rfl, rfl⟩
  | tick now =>
    unfold schedStepIn
    by_cases hf : s.stopFlag
    · simp [hf]
    · simp only [hf, Bool.false_eq_true, if_false]
      cases hst : s.start_time with
      | none => simp
      | some t0 =>
        simp only []
        by_cases hlen : s.idx < notes.length
        · rw [dif_pos hlen]
          split
          · simp
          · exact Or.inr ⟨rfl, notes.get ⟨s.idx, hlen⟩, rfl,
              (List.getElem?_eq_getElem hlen)⟩
        · rw [dif_neg hlen]
          simp

/-- A `tick` never sets the stop flag. -/
theorem schedStepIn_stopFlag (notes : List ChartNote) (s : SchedState) (now : ℚ) :
    (schedStepIn notes s (SchedIn.tick now)).1.stopFlag = s.stopFlag := by
  unfold schedStepIn
  by_cases hf : s.stopFlag
  · simp [hf]
  · have hf0 : s.stopFlag = false := by simpa using hf
    simp only [hf0, Bool.false_eq_true, if_false]
    cases s.start_time with
    | none => simp [hf0]
    | some t0 =>
      repeat' split
      all_goals simp [hf0]

/-- C7: over any execution of the `AudioScheduler` worker loop the play
index only increases (never rewinds), the sequence of triggered indices
is exactly the contiguous run from the initial to the final index (so
each chart note's audio fires at most once, strictly in chart order),
and every triggered pair is the chart note at that index. -/
theorem schedRun_monotone_inorder (notes : List ChartNote) (s : SchedState)
    (ins : List SchedIn) :
    s.idx ≤ (schedRun notes s ins).1.idx
    ∧ (schedRun notes s ins).2.map Prod.fst
        = List.range' s.idx ((schedRun notes s ins).1.idx - s.idx)
    ∧ (∀ p ∈ (schedRun notes s ins).2, notes[p.1]? = some p.2) := by
  induction ins generalizing s with
  | nil => simp [schedRun]
  | cons i ins ih =>
    have hrun : schedRun notes s (i :: ins)
        = ((schedRun notes (schedStepIn notes s i).1 ins).1,
           (schedStepIn notes s i).2.toList
             ++ (schedRun notes (schedStepIn notes s i).1 ins).2) := rfl
    obtain ⟨ihm, ihr, ihp⟩ := ih (schedStepIn notes s i).1
    rcases schedStepIn_spec notes s i with ⟨hout, hidx⟩ | ⟨hidx, note, hout, hget⟩
    · rw [hrun, hout]
      rw [hidx] at ihm ihr
      exact ⟨ihm, by simpa using ihr, by simpa using ihp⟩
    · rw [hrun, hout]
      rw [hidx] at ihm ihr
      have hm : s.idx ≤ (schedRun notes (schedStepIn notes s i).1 ins).1.idx :=
        le_trans (Nat.le_succ s.idx) ihm
      refine ⟨hm, ?_, ?_⟩
      · have hlen : (schedRun notes (schedStepIn notes s i).1 ins).1.idx - s.idx
            = ((schedRun notes (schedStepIn notes s i).1 ins).1.idx - (s.idx + 1)) + 1 := by
          omega
        rw [hlen, List.range'_succ]
        simpa using ihr
      · intro p hp
        rcases List.mem_append.mp hp with h1 | h2
        · have hpe : p = (s.idx, note) := by simpa using h1
          rw [hpe]
          exact hget
        · exact ihp p h2

/-- Ticks alone never raise the stop flag across a whole run. -/
theorem schedRun_no_stop (notes : List ChartNote) (s : SchedState)
    (ins : List SchedIn) (h0 : s.stopFlag = false)
    (hns : ∀ i ∈ ins, i ≠ SchedIn.stop) :
    (schedRun notes s ins).1.stopFlag = false := by
  induction ins generalizing s with
  | nil => exact h0
  | cons i ins ih =>
    have hstep : (schedStepIn notes s i).1.stopFlag = false := by
      cases i with
      | stop => exact absurd rfl (hns SchedIn.stop (by simp))
      | tick now => rw [schedStepIn_stopFlag]; exact h0
    exact ih (schedStepIn notes s i).1 hstep (fun j hj => hns j (by simp [hj]))

/-! ### C6: chart compression (declustering) -/

/-- Python's `max(cluster, key=...)` returns a member of the cluster. -/
theorem pyMaxPitch_mem (h : ChartNote) (t : List ChartNote) :
    pyMaxPitch h t ∈ h :: t := by
  induction t generalizing h with
  | nil => simp [pyMaxPitch]
  | cons x ts ih =>
    have h2 := ih (if x.midi_note > h.midi_note then x else h)
    have hgoal : pyMaxPitch h (x :: ts)
        = pyMaxPitch (if x.midi_note > h.midi_note then x else h) ts := by
      simp [pyMaxPitch]
    rw [hgoal]
    rcases List.mem_cons.mp h2 with he | hm
    · rw [he]
      split <;> simp
    · exact List.mem_cons.mpr (Or.inr (List.mem_cons.mpr (Or.inr hm)))

/-- Source `cluster[-1]` of `h :: x :: t` is `cluster[-1]` of `x :: t`. -/
theorem lastNote_cons (h x : ChartNote) (t : List ChartNote) :
    lastNote h (x :: t) = lastNote x t := by
  cases t with
  | nil => rfl
  | cons y ys => rfl

/-- Source `cluster[-1]` is a member of the cluster. -/
theorem lastNote_mem (h : ChartNote) (t : List ChartNote) :
    lastNote h t ∈ h :: t := by
  induction t generalizing h with
  | nil => simp [lastNote]
  | cons x ts ih =>
    rw [lastNote_cons]
    exact List.mem_cons.mpr (Or.inr (ih x))

/-- In a time-sorted cluster every element is at or before the last. -/
theorem le_lastNote (h : ChartNote) (t : List ChartNote)
    (hs : (h :: t).Pairwise (fun a b => a.time ≤ b.time)) :
    ∀ x ∈ h :: t, x.time ≤ (lastNote h t).time := by
  induction t generalizing h with
  | nil =>
    intro x hx
    have hx2 : x = h := by simpa using hx
    rw [hx2]
    simp [lastNote]
  | cons y ts ih =>
    intro x hx
    rw [lastNote_cons]
    have hs2 : (y :: ts).Pairwise (fun a b => a.time ≤ b.time) :=
      (List.pairwise_cons.mp hs).2
    rcases List.mem_cons.mp hx with rfl | hx2
    · exact (List.pairwise_cons.mp hs).1 (lastNote y ts) (lastNote_mem y ts)
    · exact ih y hs2 x hx2

/-- Every note the compression loop emits comes from the cluster in
progress or the unscanned remainder. -/
theorem compressAux_mem (rest : List ChartNote) :
    ∀ (clHead : ChartNote) (clRest : List ChartNote) (x : ChartNote),
      x ∈ compressAux clHead clRest rest → x ∈ clHead :: (clRest ++ rest) := by
  induction rest with
  | nil =>
    intro clHead clRest x hx
    have hx2 : x = pyMaxPitch clHead clRest := by simpa [compressAux] using hx
    rw [hx2]
    simpa using pyMaxPitch_mem clHead clRest
  | cons note rest ih =>
    intro clHead clRest x hx
    unfold compressAux at hx
    split at hx
    · have h2 := ih clHead (clRest ++ [note]) x hx
      simpa [List.append_assoc] using h2
    · rcases List.mem_cons.mp hx with rfl | hx2
      · have h2 := pyMaxPitch_mem clHead clRest
        rcases List.mem_cons.mp h2 with he | hm
        · rw [he]
          simp
        · simp [List.mem_append, hm]
      · have h2 := ih note [] x hx2
        have h3 : x ∈ note :: rest := by simpa using h2
        rcases List.mem_cons.mp h3 with rfl | h4
        · simp
        · simp [List.mem_append, h4]

/-- Core invariant of the compression loop: on a time-sorted input the
emitted melody has all successive gaps strictly above `cluster_eps`. -/
theorem compressAux_gap (rest : List ChartNote) :
    ∀ (clHead : ChartNote) (clRest : List ChartNote),
      (clHead :: (clRest ++ rest)).Pairwise (fun a b => a.time ≤ b.time) →
      (compressAux clHead clRest rest).Pairwise
        (fun a b => a.time + cluster_eps < b.time) := by
  induction rest with
  | nil =>
    intro clHead clRest _
    simp [compressAux]
  | cons note rest ih =>
    intro clHead clRest hs
    have hs2 : ((clHead :: clRest) ++ (note :: rest)).Pairwise
        (fun a b => a.time ≤ b.time) := by
      simpa using hs
    rw [List.pairwise_append] at hs2
    obtain ⟨hsL, hsR, hcross⟩ := hs2
    unfold compressAux
    split
    · apply ih clHead (clRest ++ [note])
      simpa [List.append_assoc] using hs
    · next hgt =>
      rw [List.pairwise_cons]
      constructor
      · intro y hy
        have hymem : y ∈ note :: rest := by
          simpa using compressAux_mem rest note [] y hy
        have hpm := pyMaxPitch_mem clHead clRest
        have hple : (pyMaxPitch clHead clRest).time ≤ (lastNote clHead clRest).time :=
          le_lastNote clHead clRest hsL _ hpm
        have hln : (lastNote clHead clRest).time ≤ note.time :=
          hcross _ (lastNote_mem clHead clRest) note (by simp)
        have habs : ¬ |note.time - (lastNote clHead clRest).time| ≤ cluster_eps := hgt
        rw [abs_of_nonneg (by linarith)] at habs
        have hgap : cluster_eps < note.time - (lastNote clHead clRest).time :=
          not_le.mp habs
        have hny : note.time ≤ y.time := by
          rcases List.mem_cons.mp hymem with rfl | hyr
          · exact le_refl _
          · exact (List.pairwise_cons.mp hsR).1 y hyr
        linarith
      · apply ih note []
        simpa using hsR

/-- C6: on every time-sorted raw note list, the compressed melody is
strictly increasing in time with all pairwise gaps strictly above
`cluster_eps` (clustering fully merges: no two output notes are within
80 ms), and every output note is one of the input notes. -/
theorem compress_declusters (raw : List ChartNote)
    (hs : raw.Pairwise (fun a b => a.time ≤ b.time)) :
    (compress raw).Pairwise
      (fun a b => a.time < b.time ∧ cluster_eps < |b.time - a.time|)
    ∧ ∀ x ∈ compress raw, x ∈ raw := by
  cases raw with
  | nil => simp [compress]
  | cons h t =>
    have hgap := compressAux_gap t h [] (by simpa using hs)
    constructor
    · apply hgap.imp
      intro a b hab
      have heps : (0 : ℚ) < cluster_eps := by norm_num [cluster_eps]
      constructor
      · linarith
      · rw [abs_of_pos (by linarith)]
        linarith
    · intro x hx
      have h2 := compressAux_mem t h [] x hx
      simpa using h2

/-- Witness for C6 on a concrete sorted raw list where clusters merge. -/
theorem compress_declusters_witness :
    egRaw.Pairwise (fun a b => a.time ≤ b.time)
    ∧ ((compress egRaw).Pairwise
        (fun a b => a.time < b.time ∧ cluster_eps < |b.time - a.time|)
      ∧ ∀ x ∈ compress egRaw, x ∈ egRaw) :=
  ⟨by norm_num [egRaw, List.pairwise_cons],
   compress_declusters egRaw (by norm_num [egRaw, List.pairwise_cons])⟩

/-! ### C2 and C3: the DONE transition and `stop_all` -/

/-- With no active note, the miss sweep is the identity. -/
theorem updateActiveNote_none (s : RhythmState) (t : ℚ)
    (h : s.active_note = none) : updateActiveNote s t = s := by
  unfold updateActiveNote
  rw [h]

/-- Source `_spawn_next_note_if_needed` does nothing once `current_index` is
past the end of the chart. -/
theorem spawn_at_end (s : RhythmState) (t : ℚ)
    (h2 : s.chart_notes.length ≤ s.current_index) :
    spawnNextNoteIfNeeded s t = s := by
  unfold spawnNextNoteIfNeeded
  split
  · rfl
  · rw [List.getElem?_eq_none h2]

/-- Source `_check_done_and_finish` flips to DONE and stops audio precisely
when the whole chart is spent and judged. -/
theorem checkDone_done (s : RhythmState)
    (h1 : s.chart_notes.length ≤ s.current_index)
    (h2 : s.active_note = none)
    (h3 : ∀ n ∈ s.chart_notes, n.judged = true) :
    checkDoneAndFinish s = stop_audio { s with phase := Phase.done } := by
  unfold checkDoneAndFinish
  rw [if_neg (by omega), if_neg (by simp [h2]),
      if_neg (not_not_intro (List.all_eq_true.mpr h3))]

/-- Source `stop_audio` does not change the phase. -/
theorem stop_audio_phase (s : RhythmState) : (stop_audio s).1.phase = s.phase := by
  unfold stop_audio
  cases s.audio_scheduler
  all_goals by_cases h : s.audioPresent = true <;> simp [h]

/-- With a sound engine attached, `stop_audio` always emits a
`stop_all` call. -/
theorem stop_audio_stopAll_mem (s : RhythmState) (h : s.audioPresent = true) :
    REffect.stopAll ∈ (stop_audio s).2 := by
  unfold stop_audio
  cases s.audio_scheduler <;> simp [h]

/-- The complete-frame lemma: in PLAY, with the chart spent, no active
note, and everything judged, `update` reaches DONE through
`_check_done_and_finish` and runs `stop_audio`. -/
theorem update_complete (s : RhythmState) (now t0 : ℚ)
    (hp : s.phase = Phase.play) (hps : s.play_start = some t0)
    (hidx : s.chart_notes.length ≤ s.current_index)
    (hact : s.active_note = none)
    (hjud : ∀ n ∈ s.chart_notes, n.judged = true) :
    (update s now).1.phase = Phase.done
    ∧ (s.audioPresent = true → REffect.stopAll ∈ (update s now).2) := by
  obtain ⟨R, hupd⟩ : ∃ R, update s now
      = checkDoneAndFinish { s with render_start_index := R } :=
    ⟨advanceRenderIndex s.chart_notes (now - t0 - (FALL_DURATION_SEC + MISS_LATE_SEC))
        s.render_start_index, by
      unfold update
      rw [if_neg (by simp [hp]), if_neg (by simp [hp])]
      simp only [hps, Option.getD_some]
      rw [updateActiveNote_none _ _ hact]
      rw [spawn_at_end _ _ (by simpa using hidx)]
      rw [hps]⟩
  rw [hupd, checkDone_done _ (by simpa using hidx) (by simpa using hact)
    (by simpa using hjud)]
  constructor
  · rw [stop_audio_phase]
  · intro hA
    exact stop_audio_stopAll_mem _ (by simpa using hA)

/-- C2 (amended): the engine transitions to DONE on the very next
`update` frame once every chart note is judged and the active-note slot
is clear — there is no tail-hold delay before DONE. -/
theorem done_transition_immediate (s : RhythmState) (now t0 : ℚ)
    (hp : s.phase = Phase.play) (hps : s.play_start = some t0)
    (hidx : s.chart_notes.length ≤ s.current_index)
    (hact : s.active_note = none)
    (hjud : ∀ n ∈ s.chart_notes, n.judged = true) :
    (update s now).1.phase = Phase.done :=
  (update_complete s now t0 hp hps hidx hact hjud).1

/-- Counterexample to C2 as stated: a 1-note session (note at
`time = 1`) whose note is still unjudged at the frame at
`now = 1.26`.  That single frame miss-judges the note *and* flips the
phase to DONE — while `1.26 < 1 + 4`, i.e. long before any ≈4 s tail
hold past the last note's time, and in the same frame the last note was
judged. -/
theorem done_no_tail_hold_cex :
    (update doneFrameState (126/100)).1.phase = Phase.done
    ∧ (126/100 : ℚ) < 1 + 4 := by
  constructor
  · unfold update
    rw [if_neg (by decide), if_neg (by decide)]
    norm_num [doneFrameState, updateActiveNote, registerMiss,
      startFeedback, spawnNextNoteIfNeeded, checkDoneAndFinish, stop_audio,
      advanceRenderIndex, countWhileOld, MISS_LATE_SEC, FALL_DURATION_SEC,
      FEEDBACK_DURATION_SEC, FEEDBACK_COLOR_MISS]
  · norm_num

/-- Witness for the amended C2 at the concrete all-judged state. -/
theorem done_transition_immediate_witness :
    (judgedState.phase = Phase.play ∧ judgedState.play_start = some 0
      ∧ judgedState.chart_notes.length ≤ judgedState.current_index
      ∧ judgedState.active_note = none
      ∧ (∀ n ∈ judgedState.chart_notes, n.judged = true))
    ∧ (update judgedState 6).1.phase = Phase.done :=
  ⟨⟨rfl, rfl, by decide, rfl, by decide⟩,
   done_transition_immediate judgedState 6 0 rfl rfl (by decide) rfl (by decide)⟩

/-- C3 (amended): the `AudioScheduler` worker itself never calls
`stop_all` when it plays out naturally (its run epilogue silences only
when the stop flag was set by a forced `stop()`); but `RhythmMode`'s
completion path does call `stop_audio` — and hence the engine's
`stop_all` — on natural completion as well. -/
theorem natural_completion_stop_all :
    (∀ (notes : List ChartNote) (s : SchedState) (ins : List SchedIn),
        s.stopFlag = false → (∀ i ∈ ins, i ≠ SchedIn.stop) →
        runEpilogueStopsAll (schedRun notes s ins).1 = false)
    ∧ (∀ (s : RhythmState) (now t0 : ℚ),
        s.phase = Phase.play → s.play_start = some t0 →
        s.chart_notes.length ≤ s.current_index → s.active_note = none →
        (∀ n ∈ s.chart_notes, n.judged = true) → s.audioPresent = true →
        REffect.stopAll ∈ (update s now).2) := by
  constructor
  · intro notes s ins h0 hns
    unfold runEpilogueStopsAll
    exact schedRun_no_stop notes s ins h0 hns
  · intro s now t0 hp hps hidx hact hjud hA
    exact (update_complete s now t0 hp hps hidx hact hjud).2 hA

/-- Counterexample to C3 as stated: on the natural completion frame of
the 1-note session (no mode switch, restart or external stop anywhere),
the update emits a `stop_all` call to the sound engine. -/
theorem natural_completion_stop_all_cex :
    REffect.stopAll ∈ (update doneFrameState (126/100)).2 := by
  unfold update
  rw [if_neg (by decide), if_neg (by decide)]
  norm_num [doneFrameState, updateActiveNote, registerMiss,
    startFeedback, spawnNextNoteIfNeeded, checkDoneAndFinish, stop_audio,
    advanceRenderIndex, countWhileOld, MISS_LATE_SEC, FALL_DURATION_SEC,
    FEEDBACK_DURATION_SEC, FEEDBACK_COLOR_MISS]

/-- Witness for the amended C3: a stop-free worker run keeps the stop
flag clear (so its epilogue does not silence), while the mode-level
completion frame emits `stop_all`. -/
theorem natural_completion_stop_all_witness :
    (({ start_time := some 0, idx := 0, stopFlag := false } : SchedState).stopFlag = false
      ∧ (∀ i ∈ [SchedIn.tick 1], i ≠ SchedIn.stop)
      ∧ runEpilogueStopsAll
          (schedRun [] { start_time := some 0, idx := 0, stopFlag := false }
            [SchedIn.tick 1]).1 = false)
    ∧ (judgedState.audioPresent = true
      ∧ REffect.stopAll ∈ (update judgedState 6).2) :=
  ⟨⟨rfl, by decide,
    natural_completion_stop_all.1 [] _ [SchedIn.tick 1] rfl (by decide)⟩,
   ⟨rfl, natural_completion_stop_all.2 judgedState 6 0 rfl rfl (by decide) rfl
      (by decide) rfl⟩⟩

/-! ### C5: hit judgment -/

/-- C5 (amended): a lane-tagged `NOTE_ON` during PLAY judges at most the
single *active* note — the earliest spawned, not necessarily the
nearest unjudged note of that lane — and only when the event's lane
matches it.  The note is marked judged and hit, scored 2 for
`|dt| ≤ 0.08`, 1 for `|dt| ≤ 0.16`, else 0 (the 0 case still marks it
judged but adds nothing to the total); feedback fires only for scores 2
and 1, not for a 0-point hit. -/
theorem hit_judges_active_note (s : RhythmState) (now t0 : ℚ) (i : ℕ)
    (note : ChartNote) (ev : InputEvent)
    (hp : s.phase = Phase.play) (hps : s.play_start = some t0)
    (hact : s.active_note = some i) (hnote : s.chart_notes[i]? = some note)
    (hj : note.judged = false)
    (het : ev.type = EventType.note_on) (hek : ev.key = some note.key) :
    handle_events s [ev] now
      = (let dt := (now - t0) - note.time
         let w : ℕ := if |dt| ≤ PERFECT_WINDOW_SEC then 2
                      else if |dt| ≤ GOOD_WINDOW_SEC then 1 else 0
         let s1 := { s with
           chart_notes := s.chart_notes.set i
             { note with judged := true, hit := true, score := w },
           score := s.score + w }
         if w = 2 then startFeedback s1 (now - t0) FEEDBACK_COLOR_PERFECT
         else if w = 1 then startFeedback s1 (now - t0) FEEDBACK_COLOR_GOOD
         else s1) := by
  unfold handle_events
  rw [if_neg (by simp [hp])]
  simp only [hps, List.foldl_cons, List.foldl_nil]
  unfold handleOneEvent
  rw [if_neg (by simp [het])]
  simp only [hek, hact, hnote]
  rw [if_neg (by simp)]
  unfold registerHit
  simp only [hnote, hj, Bool.false_eq_true, if_false]
  by_cases h1 : |now - t0 - note.time| ≤ PERFECT_WINDOW_SEC
  · simp only [h1, if_true, if_pos]
    norm_num [hps, hact]
  · by_cases h2 : |now - t0 - note.time| ≤ GOOD_WINDOW_SEC
    · simp only [h1, h2, if_true, if_false]
      norm_num [hps, hact]
    · simp only [h1, h2, if_false]
      norm_num [hps, hact]

/-- Counterexample to C5 as stated: two unjudged lane-0 notes at
`time = 1` (active) and `time = 1.3`; a lane-0 `NOTE_ON` at
`song_time = 1.2` judges the *active* note (`|dt| = 0.2`, score 0, no
feedback) even though the other lane-0 note is strictly nearer
(`|dt| = 0.1`) and both are inside the 0.25 s window — and the claimed
feedback for a 0-point judgment does not fire. -/
theorem hit_not_nearest_cex :
    ((handle_events twoNoteState [lane0NoteOn] (12/10)).chart_notes[0]?.map
        (fun n => n.judged)) = some true
    ∧ ((handle_events twoNoteState [lane0NoteOn] (12/10)).chart_notes[0]?.map
        (fun n => n.score)) = some 0
    ∧ ((handle_events twoNoteState [lane0NoteOn] (12/10)).chart_notes[1]?.map
        (fun n => n.judged)) = some false
    ∧ (handle_events twoNoteState [lane0NoteOn] (12/10)).feedback_color = none
    ∧ (handle_events twoNoteState [lane0NoteOn] (12/10)).score = 0
    ∧ |(12/10 : ℚ) - 13/10| < |(12/10 : ℚ) - 1|
    ∧ |(12/10 : ℚ) - 13/10| ≤ MISS_LATE_SEC
    ∧ |(12/10 : ℚ) - 1| ≤ MISS_LATE_SEC := by
  refine ⟨?_, ?_, ?_, ?_, ?_, ?_, ?_, ?_⟩ <;>
    norm_num [handle_events, handleOneEvent, registerHit, startFeedback,
      twoNoteState, lane0NoteOn, PERFECT_WINDOW_SEC, GOOD_WINDOW_SEC,
      MISS_LATE_SEC, abs, max_def]

/-- Witness for the amended C5 at the two-note state. -/
theorem hit_judges_active_note_witness :
    (twoNoteState.phase = Phase.play ∧ twoNoteState.play_start = some 0
      ∧ twoNoteState.active_note = some 0
      ∧ twoNoteState.chart_notes[0]?
          = some { time := 1, midi_note := 60, key := 0, velocity := 1 }
      ∧ lane0NoteOn.type = EventType.note_on ∧ lane0NoteOn.key = some 0)
    ∧ handle_events twoNoteState [lane0NoteOn] (12/10)
      = (let dt := ((12/10 : ℚ) - 0)
           - ({ time := 1, midi_note := 60, key := 0, velocity := 1 } : ChartNote).time
         let w : ℕ := if |dt| ≤ PERFECT_WINDOW_SEC then 2
                      else if |dt| ≤ GOOD_WINDOW_SEC then 1 else 0
         let s1 := { twoNoteState with
           chart_notes := twoNoteState.chart_notes.set 0
             { ({ time := 1, midi_note := 60, key := 0, velocity := 1 } : ChartNote) with
                judged := true, hit := true, score := w },
           score := twoNoteState.score + w }
         if w = 2 then startFeedback s1 ((12/10 : ℚ) - 0) FEEDBACK_COLOR_PERFECT
         else if w = 1 then startFeedback s1 ((12/10 : ℚ) - 0) FEEDBACK_COLOR_GOOD
         else s1) :=
  ⟨⟨rfl, rfl, rfl, by decide, rfl, rfl⟩,
   hit_judges_active_note twoNoteState (12/10) 0 0
     { time := 1, midi_note := 60, key := 0, velocity := 1 } lane0NoteOn
     rfl rfl rfl (by decide) rfl rfl rfl⟩

/-! ### C8: the remote pending-command FIFO -/

/-- Source `set_state` does not touch the pending queue. -/
theorem set_state_pending (s : PicoState) (p : PState) (now : ℚ) :
    (set_state s p now).pending_queue = s.pending_queue := by
  unfold set_state
  repeat' split
  all_goals rfl

/-- Source `start_marquee` does not touch the pending queue. -/
theorem start_marquee_pending (s : PicoState) (text : String) (now : ℚ) :
    (start_marquee s text now).pending_queue = s.pending_queue := rfl

/-- Source `enter_menu_mode` does not touch the pending queue. -/
theorem enter_menu_mode_pending (s : PicoState) (now : ℚ) :
    (enter_menu_mode s now).pending_queue = s.pending_queue := by
  unfold enter_menu_mode
  simp [set_state_pending]

/-- Source `enter_rhythm_title` does not touch the pending queue. -/
theorem enter_rhythm_title_pending (s : PicoState) (now : ℚ) :
    (enter_rhythm_title s now).pending_queue = s.pending_queue := by
  unfold enter_rhythm_title
  simp [set_state_pending]

/-- Source `enter_rhythm_attract` does not touch the pending queue. -/
theorem enter_rhythm_attract_pending (s : PicoState) (now : ℚ) :
    (enter_rhythm_attract s now).pending_queue = s.pending_queue := by
  unfold enter_rhythm_attract
  simp [set_state_pending]

/-- Source `update_menu_mode` does not touch the pending queue. -/
theorem update_menu_mode_pending (s : PicoState) (now : ℚ) :
    (update_menu_mode s now).pending_queue = s.pending_queue := by
  unfold update_menu_mode
  split <;> rfl

/-- Source `update_rhythm_attract` does not touch the pending queue. -/
theorem update_rhythm_attract_pending (s : PicoState) (now : ℚ) :
    (update_rhythm_attract s now).pending_queue = s.pending_queue := by
  unfold update_rhythm_attract
  split <;> rfl

/-- Source `_handle_line` never enqueues: the pending queue is owned by
`process_serial_command`/`update_state` alone. -/
theorem handle_line_pending (s : PicoState) (line : String) (now : ℚ) :
    (handle_line s line now).pending_queue = s.pending_queue := by
  unfold handle_line
  simp only [apply_ite (fun st : PicoState => st.pending_queue)]
  simp [set_state_pending, start_marquee_pending,
    enter_menu_mode_pending, enter_rhythm_title_pending, ite_self]

/-- The animation block does not touch the pending queue. -/
theorem update_state_anim_pending (s : PicoState) (now : ℚ) :
    (update_state_anim s now).1.pending_queue = s.pending_queue := by
  unfold update_state_anim
  repeat' split
  all_goals simp only [apply_ite (fun st : PicoState => st.pending_queue)]
  all_goals simp [set_state_pending, enter_rhythm_attract_pending,
    update_menu_mode_pending, update_rhythm_attract_pending, ite_self]

/-- The acknowledgement block changes only `best_score_done_sent`. -/
theorem update_state_ack_fields (s : PicoState) (now : ℚ) :
    (update_state_ack s now).1.pending_queue = s.pending_queue
    ∧ (update_state_ack s now).1.state = s.state
    ∧ (update_state_ack s now).1.marquee_lock_until = s.marquee_lock_until
    ∧ (update_state_ack s now).1.score_lock_until = s.score_lock_until := by
  unfold update_state_ack
  split <;> simp

/-- Each `update_state` tick consumes a (possibly empty) prefix of the
pending queue, replaying exactly what it removes. -/
theorem update_state_take_drop (s : PicoState) (now : ℚ) :
    ∃ k, (update_state s now).2.2 = s.pending_queue.take k
      ∧ (update_state s now).1.pending_queue = s.pending_queue.drop k := by
  obtain ⟨hpq, hst, hml, hscl⟩ := update_state_ack_fields s now
  unfold update_state
  simp only []
  unfold update_state_replay
  split
  · cases hq : (update_state_ack s now).1.pending_queue with
    | nil =>
      refine ⟨0, by simp [hq], ?_⟩
      simp only [hq, List.drop_zero]
      rw [update_state_anim_pending]
      simp only [hq]
      rw [← hpq, hq]
    | cons c rest =>
      refine ⟨1, ?_, ?_⟩
      · simp only [hq]
        rw [← hpq, hq]
        rfl
      · simp only [hq]
        rw [update_state_anim_pending, handle_line_pending]
        rw [← hpq, hq]
        rfl
  · refine ⟨0, by simp, ?_⟩
    simp only [List.drop_zero]
    rw [update_state_anim_pending, hpq]

/-- Over any run of replay-phase ticks, the replayed lines are exactly
an initial segment of the pending queue, in FIFO order, and exactly the
removed entries (so each is applied exactly once). -/
theorem deviceTicks_take_drop (s : PicoState) (ts : List ℚ) :
    ∃ k, (deviceTicks s ts).2 = s.pending_queue.take k
      ∧ (deviceTicks s ts).1.pending_queue = s.pending_queue.drop k := by
  induction ts generalizing s with
  | nil => exact ⟨0, rfl, rfl⟩
  | cons t ts ih =>
    obtain ⟨k1, h1, h2⟩ := update_state_take_drop s t
    obtain ⟨k2, h3, h4⟩ := ih (update_state s t).1
    refine ⟨k1 + k2, ?_, ?_⟩
    · show (update_state s t).2.2 ++ (deviceTicks (update_state s t).1 ts).2
        = s.pending_queue.take (k1 + k2)
      rw [h1, h3, h2, List.take_add]
    · show (deviceTicks (update_state s t).1 ts).1.pending_queue
        = s.pending_queue.drop (k1 + k2)
      rw [h4, h2, List.drop_drop, Nat.add_comm]

/-- C8: during a marquee or static-score lock window a non-urgent
command is pushed onto the pending FIFO (a total function — nothing is
raised); the FIFO is bounded at `PENDING_MAX = 32` entries, dropping the
oldest entry when full; and once no lock is active the queued commands
are replayed one per `update_state` tick in FIFO order, each removed
from the queue — hence applied exactly once — as it is replayed. -/
theorem pending_fifo_bounded_replay :
    (∀ (q : List String) (l : String), q.length ≤ PENDING_MAX →
        (enqueue q l).length ≤ PENDING_MAX)
    ∧ (∀ (q : List String) (l : String), q.length = PENDING_MAX →
        enqueue q l = q.drop 1 ++ [l])
    ∧ (∀ (s : PicoState) (line : String) (now : ℚ),
        sanitize line ≠ "" →
        ((s.state = PState.rhythm_scroll ∧ now < s.marquee_lock_until) ∨
         (s.state = PState.rhythm_post ∧ now < s.score_lock_until)) →
        cmdIsUrgent (pyUpper (sanitize line)) = false →
        process_serial_command s line now
          = ({ s with pending_queue := enqueue s.pending_queue (sanitize line) }, []))
    ∧ (∀ (s : PicoState) (now : ℚ) (c : String) (rest : List String),
        ¬ (s.state = PState.rhythm_scroll ∧ now < s.marquee_lock_until) →
        ¬ (s.state = PState.rhythm_post ∧ now < s.score_lock_until) →
        s.pending_queue = c :: rest →
        (update_state s now).2.2 = [c]
        ∧ (update_state s now).1.pending_queue = rest)
    ∧ (∀ (s : PicoState) (ts : List ℚ), ∃ k,
        (deviceTicks s ts).2 = s.pending_queue.take k
        ∧ (deviceTicks s ts).1.pending_queue = s.pending_queue.drop k) := by
  refine ⟨?_, ?_, ?_, ?_, deviceTicks_take_drop⟩
  · intro q l hle
    unfold enqueue
    split
    · next hge =>
      simp only [List.length_append, List.length_drop, List.length_singleton,
        PENDING_MAX] at *
      omega
    · next hlt =>
      simp only [List.length_append, List.length_singleton, PENDING_MAX] at *
      omega
  · intro q l heq
    unfold enqueue
    rw [if_pos (by omega), heq]
    norm_num [PENDING_MAX]
  · intro s line now hne hlock hurg
    unfold process_serial_command
    rw [if_neg hne]
    rcases hlock with ⟨ha, hb⟩ | ⟨ha, hb⟩
    · rw [if_pos ⟨ha, hb, hurg⟩]
    · rw [if_neg (by simp [ha]), if_pos ⟨ha, hb, hurg⟩]
  · intro s now c rest hm hsc hq
    obtain ⟨hpq, hst, hml, hscl⟩ := update_state_ack_fields s now
    have hq2 : (update_state_ack s now).1.pending_queue = c :: rest :=
      hpq.trans hq
    have hcond : (¬ ((update_state_ack s now).1.state = PState.rhythm_scroll
          ∧ now < (update_state_ack s now).1.marquee_lock_until))
        ∧ (¬ ((update_state_ack s now).1.state = PState.rhythm_post
          ∧ now < (update_state_ack s now).1.score_lock_until)) := by
      rw [hst, hml, hscl]
      exact ⟨hm, hsc⟩
    constructor
    · show (update_state_replay (update_state_ack s now).1 now).2 = [c]
      unfold update_state_replay
      rw [if_pos hcond, hq2]
    · show (update_state_anim
          (update_state_replay (update_state_ack s now).1 now).1 now).1.pending_queue
        = rest
      rw [update_state_anim_pending]
      unfold update_state_replay
      rw [if_pos hcond, hq2]
      rw [handle_line_pending]

/-- Witness for C8: a full queue evicts its oldest entry; the marquee
lock at `t = 1` queues a non-urgent score command; at `t = 7` (lock
expired) the tick replays exactly the queue head and removes it. -/
theorem pending_fifo_bounded_replay_witness :
    ((List.replicate 32 "X").length = PENDING_MAX
      ∧ enqueue (List.replicate 32 "X") "Y"
          = (List.replicate 32 "X").drop 1 ++ [ "Y"])
    ∧ (sanitize "RHYTHM:USER_SCORE:3/6" ≠ ""
      ∧ ((picoMarquee.state = PState.rhythm_scroll
            ∧ (1 : ℚ) < picoMarquee.marquee_lock_until) ∨
         (picoMarquee.state = PState.rhythm_post
            ∧ (1 : ℚ) < picoMarquee.score_lock_until))
      ∧ cmdIsUrgent (pyUpper (sanitize "RHYTHM:USER_SCORE:3/6")) = false
      ∧ process_serial_command picoMarquee "RHYTHM:USER_SCORE:3/6" 1
          = ({ picoMarquee with pending_queue := enqueue picoMarquee.pending_queue (sanitize "RHYTHM:USER_SCORE:3/6") },
             []))
    ∧ ((update_state picoMarquee 7).2.2 = [ "RHYTHM:BEST_SCORE:10/20"]
      ∧ (update_state picoMarquee 7).1.pending_queue = [ "RHYTHM:BACK_TO_TITLE"]) :=
  ⟨⟨by decide, pending_fifo_bounded_replay.2.1 (List.replicate 32 "X") "Y" (by decide)⟩,
   ⟨by decide,
    Or.inl ⟨rfl, by norm_num [picoMarquee]⟩,
    by decide,
    pending_fifo_bounded_replay.2.2.1 picoMarquee "RHYTHM:USER_SCORE:3/6" 1
      (by decide) (Or.inl ⟨rfl, by norm_num [picoMarquee]⟩) (by decide)⟩,
   pending_fifo_bounded_replay.2.2.2.1 picoMarquee 7 "RHYTHM:BEST_SCORE:10/20"
     [ "RHYTHM:BACK_TO_TITLE"] (by norm_num [picoMarquee])
     (by norm_num [picoMarquee]) rfl⟩

/-! ### C1: the post-game best-score → back-to-title advance -/

/-- C1 (amended): the advance out of the `best_score` stage is gated by
a fixed 3-second timer, not by the `RHYTHM:BEST_SCORE_DONE`
acknowledgement: (i) once 3 s have elapsed the orchestrator sends
`RHYTHM:BACK_TO_TITLE` and resets the session regardless of any inbound
line, and before 3 s it does nothing; (ii) the host's Pico-message
handler ignores `RHYTHM:BEST_SCORE_DONE` entirely (only
`RHYTHM:COUNTDOWN_DONE` is acted on); (iii) the remote device does emit
`RHYTHM:BEST_SCORE_DONE` exactly once when its best-score hold expires,
but nothing on the host consumes it. -/
theorem best_score_stage_timer_gated :
    (∀ (im : IMState) (rscore rmax : ℤ) (rdiff : String) (now : ℚ),
        im.rhythm_postgame_started = true →
        im.rhythm_postgame_stage = some PGStage.best_score →
        im.picoPresent = true →
        ((now - im.rhythm_postgame_t0 ≥ 3 →
          maybeRunRhythmPostgameTimeline im Phase.done rscore rmax rdiff now
            = ({ im with rhythm_postgame_started := false,
                         rhythm_postgame_stage := none },
               [IMEffect.back_to_title, IMEffect.rhythmReset]))
        ∧ (now - im.rhythm_postgame_t0 < 3 →
          maybeRunRhythmPostgameTimeline im Phase.done rscore rmax rdiff now
            = (im, []))))
    ∧ (∀ (im : IMState) (r : RhythmState) (now : ℚ),
        handlePicoMessage im r "RHYTHM:BEST_SCORE_DONE" now = (im, r))
    ∧ (∀ (ps : PicoState) (now : ℚ),
        ps.state = PState.rhythm_post →
        ps.last_score_kind = some ScoreKind.best →
        ps.best_score_done_sent = false →
        now ≥ ps.score_lock_until →
        ps.pending_queue = [] →
        (update_state ps now).2.1 = [ "RHYTHM:BEST_SCORE_DONE"]
        ∧ (update_state ps now).1.best_score_done_sent = true) := by
  refine ⟨?_, ?_, ?_⟩
  · intro im rscore rmax rdiff now hstart hstage hpico
    unfold maybeRunRhythmPostgameTimeline
    rw [if_neg (not_not_intro rfl), if_neg (by simp [hpico]),
        if_neg (by simp [hstart])]
    rw [hstage]
    constructor
    · intro h
      simp [h]
    · intro h
      simp [not_le.mpr h]
  · intro im r now
    rfl
  · intro ps now h1 h2 h3 h4 h5
    have hack : update_state_ack ps now
        = ({ ps with best_score_done_sent := true }, [ "RHYTHM:BEST_SCORE_DONE"]) := by
      unfold update_state_ack
      rw [if_pos ⟨h1, h2, h3, h4⟩]
    have hreplay : update_state_replay { ps with best_score_done_sent := true } now
        = ({ ps with best_score_done_sent := true }, []) := by
      unfold update_state_replay
      split
      · simp [h5]
      · rfl
    have hanim : update_state_anim { ps with best_score_done_sent := true } now
        = ({ ps with best_score_done_sent := true }, []) := by
      unfold update_state_anim
      rw [if_neg (by simp [h1]; try decide), if_neg (by simp [h1]; try decide),
          if_neg (by simp [h1]; try decide), if_neg (by simp [h1]; try decide),
          if_neg (by simp [h1]; try decide), if_neg (by simp [h1]; try decide)]
    have hall : update_state ps now
        = ({ ps with best_score_done_sent := true },
           [ "RHYTHM:BEST_SCORE_DONE"], []) := by
      unfold update_state
      simp only [hack, hreplay, hanim]
      simp
    rw [hall]
    exact ⟨rfl, rfl⟩

/-- Counterexample to C1 as stated: with the orchestrator sitting in
the `best_score` stage (stage clock 0), the tick at `now = 3` already
sends `RHYTHM:BACK_TO_TITLE` and resets the session even though no
acknowledgement was ever delivered — and delivering
`RHYTHM:BEST_SCORE_DONE` to the host changes nothing at all. -/
theorem best_score_stage_timer_gated_cex :
    (maybeRunRhythmPostgameTimeline pgBestState Phase.done 5 6 "easy" 3).2
      = [IMEffect.back_to_title, IMEffect.rhythmReset]
    ∧ handlePicoMessage pgBestState doneFrameState "RHYTHM:BEST_SCORE_DONE" 3
      = (pgBestState, doneFrameState) := by
  constructor
  · norm_num [maybeRunRhythmPostgameTimeline, pgBestState]
  · rfl

/-- Witness for the amended C1: the timer fires at `now = 4`, and the
remote's ack is emitted when the best-score hold (until `t = 2`)
expires. -/
theorem best_score_stage_timer_gated_witness :
    (pgBestState.rhythm_postgame_started = true
      ∧ pgBestState.rhythm_postgame_stage = some PGStage.best_score
      ∧ pgBestState.picoPresent = true
      ∧ (4 : ℚ) - pgBestState.rhythm_postgame_t0 ≥ 3
      ∧ maybeRunRhythmPostgameTimeline pgBestState Phase.done 5 6 "easy" 4
          = ({ pgBestState with rhythm_postgame_started := false, rhythm_postgame_stage := none },
             [IMEffect.back_to_title, IMEffect.rhythmReset]))
    ∧ (picoBestHold.state = PState.rhythm_post
      ∧ picoBestHold.last_score_kind = some ScoreKind.best
      ∧ picoBestHold.best_score_done_sent = false
      ∧ (2 : ℚ) ≥ picoBestHold.score_lock_until
      ∧ picoBestHold.pending_queue = []
      ∧ ((update_state picoBestHold 2).2.1 = [ "RHYTHM:BEST_SCORE_DONE"]
        ∧ (update_state picoBestHold 2).1.best_score_done_sent = true)) :=
  ⟨⟨rfl, rfl, rfl, by norm_num [pgBestState],
    (best_score_stage_timer_gated.1 pgBestState 5 6 "easy" 4 rfl rfl rfl).1
      (by norm_num [pgBestState])⟩,
   ⟨rfl, rfl, rfl, by norm_num [picoBestHold], rfl,
    best_score_stage_timer_gated.2.2 picoBestHold 2 rfl rfl rfl
      (by norm_num [picoBestHold]) rfl⟩⟩

end PiAno
